import Mathlib

/-!
Shallow embedding of the reward-delta and transaction engine of the
`treasury-monitor` repository (files `streamlit_complete_app.py`,
`transaction_fetcher.py`, `config_complete.py`).

Numeric values that the Python code handles as floats are modelled as
exact rationals (`ℚ`); dictionaries are modelled as association lists;
fallible code returns `Option`/`Except`; the network and the on-disk
cache are threaded explicitly.
-/

namespace TreasuryMonitor

/-- A token object as read from a vault snapshot: `symbol`, `decimals`,
`price` (from `streamlit_complete_app.py`, `process_vault_data`). -/
structure Token where
  symbol : String
  decimals : ℕ
  price : ℚ
  deriving Repr, DecidableEq

/-- A vault snapshot as read by `process_vault_data`: nested supply/borrow
token objects and the four magnitude fields, plus an id. -/
structure Vault where
  id : ℕ
  supplyToken : Token
  borrowToken : Token
  totalSupply : ℚ
  totalSupplyLiquidity : ℚ
  totalBorrow : ℚ
  totalBorrowLiquidity : ℚ
  deriving Repr, DecidableEq

/-- An entry of `VAULT_MAPPING` in `streamlit_complete_app.py`. -/
structure VaultInfo where
  team : String
  vtype : String
  deriving Repr, DecidableEq

/-- `VAULT_MAPPING` from `streamlit_complete_app.py` (the dictionary the app
actually uses), as an association list keyed by the vault pair string. -/
def VAULT_MAPPING : List (String × VaultInfo) :=
  [ ("WSOL/USDC", ⟨"Fluid Team", "supply"⟩),
    ("WSOL/USDT", ⟨"Fluid Team", "supply"⟩),
    ("WSOL/USDG", ⟨"Fluid Team", "supply"⟩),
    ("WSOL/EURC", ⟨"Fluid Team", "supply"⟩),
    ("WSOL/USDS", ⟨"Fluid Team", "supply"⟩),
    ("WSOL/cbBTC", ⟨"Fluid Team", "supply"⟩),
    ("WSOL/xBTC", ⟨"Fluid Team", "supply"⟩),
    ("syrupUSDC/USDC", ⟨"Jup + Maple", "borrow"⟩),
    ("JUPSOL/USDG", ⟨"USDG Team", "borrow"⟩),
    ("xBTC/USDG", ⟨"USDG Team", "borrow"⟩),
    ("JitoSOL/USDG", ⟨"Jito + USDG", "borrow"⟩),
    ("syrupUSDC/USDG", ⟨"Maple + USDG", "borrow"⟩),
    ("LBTC/USDG", ⟨"Lombard + USDG", "borrow"⟩),
    ("INF/SOL", ⟨"Sanctum", "borrow"⟩),
    ("PST/USDC", ⟨"PST Team", "borrow"⟩),
    ("LBTC/USDC", ⟨"Lombard + Fluid", "borrow"⟩) ]

/-- `dict.get(key, default)` on an association list. -/
def dictGet {α : Type} (m : List (String × α)) (key : String) (default : α) : α :=
  match m.lookup key with
  | some v => v
  | none => default

/-- `supply_delta_amount` as computed in `process_vault_data`:
`(float(vault.totalSupply) - float(vault.totalSupplyLiquidity)) / (10 ** supply_decimals)`. -/
def supply_delta_amount (v : Vault) : ℚ :=
  (v.totalSupply - v.totalSupplyLiquidity) / (10 ^ v.supplyToken.decimals)

/-- `supply_delta_usd` as computed in `process_vault_data`. -/
def supply_delta_usd (v : Vault) : ℚ :=
  supply_delta_amount v * v.supplyToken.price

/-- `borrow_delta_amount` as computed in `process_vault_data`. -/
def borrow_delta_amount (v : Vault) : ℚ :=
  (v.totalBorrow - v.totalBorrowLiquidity) / (10 ^ v.borrowToken.decimals)

/-- `borrow_delta_usd` as computed in `process_vault_data`. -/
def borrow_delta_usd (v : Vault) : ℚ :=
  borrow_delta_amount v * v.borrowToken.price

/-- One output row of `process_vault_data` (the dictionary appended to
`rows`). -/
structure VaultRow where
  vaultId : ℕ
  vaultPair : String
  supplyTokenSym : String
  borrowTokenSym : String
  supplyDeltaAmount : ℚ
  supplyDeltaUsd : ℚ
  borrowDeltaAmount : ℚ
  borrowDeltaUsd : ℚ
  responsibleParty : String
  incentiveType : String
  supplyTokenPrice : ℚ
  borrowTokenPrice : ℚ
  deriving Repr, DecidableEq

/-- The row `process_vault_data` builds for one vault (before the noise-floor
test). -/
def mkVaultRow (v : Vault) : VaultRow :=
  let vault_pair := v.supplyToken.symbol ++ "/" ++ v.borrowToken.symbol
  let vault_info := dictGet VAULT_MAPPING vault_pair ⟨"Unknown", "unknown"⟩
  { vaultId := v.id
    vaultPair := vault_pair
    supplyTokenSym := v.supplyToken.symbol
    borrowTokenSym := v.borrowToken.symbol
    supplyDeltaAmount := supply_delta_amount v
    supplyDeltaUsd := supply_delta_usd v
    borrowDeltaAmount := borrow_delta_amount v
    borrowDeltaUsd := borrow_delta_usd v
    responsibleParty := vault_info.team
    incentiveType := vault_info.vtype
    supplyTokenPrice := v.supplyToken.price
    borrowTokenPrice := v.borrowToken.price }

/-- `process_vault_data` from `streamlit_complete_app.py`: one row per vault
whose deltas pass `abs(supply_delta_usd) > 100 or abs(borrow_delta_usd) > 100`,
in input order. -/
def process_vault_data : List Vault → List VaultRow
  | [] => []
  | v :: rest =>
    if |supply_delta_usd v| > 100 ∨ |borrow_delta_usd v| > 100 then
      mkVaultRow v :: process_vault_data rest
    else
      process_vault_data rest

/-- `LENDING_MAPPING` from `streamlit_complete_app.py` (symbol → team). -/
def LENDING_MAPPING : List (String × String) :=
  [ ("USDC", "Jupiter"),
    ("USDT", "Fluid Team"),
    ("EURC", "Fluid Team"),
    ("USDS", "Fluid Team"),
    ("USDG", "Fluid Team") ]

/-- The asset object of a lending snapshot: symbol, name, decimals, price. -/
structure LendingAsset where
  symbol : String
  name : String
  decimals : ℕ
  price : ℚ
  deriving Repr, DecidableEq

/-- A lending snapshot as read by `process_lending_data`: an asset object,
`totalAssets`, the nested `liquiditySupplyData.supply`, and an id. -/
structure LendingTokenSnapshot where
  id : ℕ
  asset : LendingAsset
  totalAssets : ℚ
  liquiditySupply : ℚ
  deriving Repr, DecidableEq

/-- One output row of `process_lending_data`. -/
structure LendingRow where
  lendingId : ℕ
  token : String
  tokenName : String
  rewardsAmount : ℚ
  rewardsUsd : ℚ
  responsibleParty : String
  tokenPrice : ℚ
  totalAssets : ℚ
  liquiditySupply : ℚ
  deriving Repr, DecidableEq

/-- `rewards_usd` as computed in `process_lending_data`. -/
def rewards_usd (t : LendingTokenSnapshot) : ℚ :=
  (t.totalAssets - t.liquiditySupply) / (10 ^ t.asset.decimals) * t.asset.price

/-- `process_lending_data` from `streamlit_complete_app.py`: one row per
lending token whose reward passes `abs(rewards_usd) > 100`. -/
def process_lending_data : List LendingTokenSnapshot → List LendingRow
  | [] => []
  | t :: rest =>
    if |rewards_usd t| > 100 then
      { lendingId := t.id
        token := t.asset.symbol
        tokenName := t.asset.name
        rewardsAmount := (t.totalAssets - t.liquiditySupply) / (10 ^ t.asset.decimals)
        rewardsUsd := rewards_usd t
        responsibleParty := dictGet LENDING_MAPPING t.asset.symbol "Unknown"
        tokenPrice := t.asset.price
        totalAssets := t.totalAssets / (10 ^ t.asset.decimals)
        liquiditySupply := t.liquiditySupply / (10 ^ t.asset.decimals) }
        :: process_lending_data rest
    else
      process_lending_data rest

/-- One entry of the `priorities` list in the Analytics tab of
`streamlit_complete_app.py`. -/
structure Priority where
  ptype : String
  item : String
  amountUsd : ℚ
  team : String
  priority : String
  deriving Repr, DecidableEq

/-- The priority entries contributed by one vault reward row: a
"Vault Supply" entry when the signed supply delta exceeds 100,000 USD
(High above 300,000), and a "Vault Borrow" entry when the absolute borrow
delta exceeds 50,000 USD (High above 100,000). -/
def vault_priorities (row : VaultRow) : List Priority :=
  (if row.supplyDeltaUsd > 100000 then
    [{ ptype := "Vault Supply"
       item := row.vaultPair
       amountUsd := row.supplyDeltaUsd
       team := row.responsibleParty
       priority := if row.supplyDeltaUsd > 300000 then "High" else "Medium" }]
   else []) ++
  (if |row.borrowDeltaUsd| > 50000 then
    [{ ptype := "Vault Borrow"
       item := row.vaultPair
       amountUsd := |row.borrowDeltaUsd|
       team := row.responsibleParty
       priority := if |row.borrowDeltaUsd| > 100000 then "High" else "Medium" }]
   else [])

/-- The priority entry contributed by one lending reward row. -/
def lending_priorities (row : LendingRow) : List Priority :=
  if row.rewardsUsd > 100000 then
    [{ ptype := "Lending"
       item := row.token
       amountUsd := row.rewardsUsd
       team := row.responsibleParty
       priority := if row.rewardsUsd > 300000 then "High" else "Medium" }]
  else []

/-- The `priorities` list of the Analytics tab, before its display-only sort
by amount: vault rows first (supply entry then borrow entry per row), then
lending rows. -/
def priorities (vaultRows : List VaultRow) (lendingRows : List LendingRow) :
    List Priority :=
  vaultRows.flatMap vault_priorities ++ lendingRows.flatMap lending_priorities

/-- A vault reward row with a given borrow delta and everything else inert. -/
def testVaultRow (b : ℚ) : VaultRow :=
  { vaultId := 0
    vaultPair := "X/Y"
    supplyTokenSym := "X"
    borrowTokenSym := "Y"
    supplyDeltaAmount := 0
    supplyDeltaUsd := 0
    borrowDeltaAmount := b
    borrowDeltaUsd := b
    responsibleParty := "Unknown"
    incentiveType := "unknown"
    supplyTokenPrice := 1
    borrowTokenPrice := 1 }

/-- A vault whose computed supply delta is 80 USD and borrow delta is 0 USD
(decimals 0, price 1, totalSupply 80, all liquidity fields matching). -/
def exampleVaultSupply80 : Vault :=
  { id := 1
    supplyToken := ⟨"FOO", 0, 1⟩
    borrowToken := ⟨"BAR", 0, 1⟩
    totalSupply := 80
    totalSupplyLiquidity := 0
    totalBorrow := 0
    totalBorrowLiquidity := 0 }

/-- A vault whose computed supply delta is 200 USD (above the noise floor). -/
def exampleVaultBig : Vault :=
  { id := 4
    supplyToken := ⟨"FOO", 0, 1⟩
    borrowToken := ⟨"BAR", 0, 1⟩
    totalSupply := 200
    totalSupplyLiquidity := 0
    totalBorrow := 0
    totalBorrowLiquidity := 0 }

/-- A vault with supply decimals 0, supply price 1, and a raw supply
difference of 10. -/
def exampleVaultDecZero : Vault :=
  { id := 2
    supplyToken := ⟨"FOO", 0, 1⟩
    borrowToken := ⟨"BAR", 6, 1⟩
    totalSupply := 10
    totalSupplyLiquidity := 0
    totalBorrow := 0
    totalBorrowLiquidity := 0 }

/-- A vault whose supply and borrow sides both have price 0 and decimals 0. -/
def exampleVaultZeroPrice : Vault :=
  { id := 3
    supplyToken := ⟨"FOO", 0, 0⟩
    borrowToken := ⟨"BAR", 0, 0⟩
    totalSupply := 7
    totalSupplyLiquidity := 2
    totalBorrow := 9
    totalBorrowLiquidity := 1 }

/-! ### Timestamps

`transaction_fetcher.py` serializes timestamps with `datetime.isoformat()`
and parses them with `datetime.fromisoformat(...)`. We model a Python
`datetime` by its components (an aware value carries a UTC offset in whole
minutes, the only shape this program produces), `isoformat` by the exact
character string Python prints, and `fromisoformat` by a parser of the
ISO-8601 shapes `isoformat` emits (Python accepts this grammar). -/

/-- The character for a single decimal digit. -/
def toDigitChar (d : ℕ) : Char := Char.ofNat (48 + d)

/-- Decimal digit characters of `n`, most significant first (`str(n)` for
positive `n`). -/
def digitCharsOf (n : ℕ) : List Char := ((Nat.digits 10 n).map toDigitChar).reverse

/-- `n` printed zero-padded to width `w` (Python `"%0*d"`). -/
def padNum (w n : ℕ) : List Char :=
  List.replicate (w - (digitCharsOf n).length) '0' ++ digitCharsOf n

/-- Numeric value of a digit character. -/
def digitVal (c : Char) : ℕ := c.toNat - 48

/-- Read exactly `w` digit characters as a number, returning the rest. -/
def readNat (w : ℕ) (cs : List Char) : Option (ℕ × List Char) :=
  if (cs.take w).length = w ∧ (cs.take w).all Char.isDigit = true then
    some ((cs.take w).foldl (fun a c => 10 * a + digitVal c) 0, cs.drop w)
  else none

/-- Consume one expected character. -/
def expectChar (c : Char) : List Char → Option (List Char)
  | [] => none
  | d :: cs => if d = c then some cs else none

/-- A Python `datetime` value by components; `tzMinutes` is the UTC offset in
minutes of an aware value (`none` for a naive one). -/
structure PyDateTime where
  year : ℕ
  month : ℕ
  day : ℕ
  hour : ℕ
  minute : ℕ
  second : ℕ
  microsecond : ℕ
  tzMinutes : Option ℤ
  deriving Repr, DecidableEq

/-- The UTC offset of an aware Python datetime is strictly less than one day
in magnitude. -/
def tzOk : Option ℤ → Prop
  | none => True
  | some off => off.natAbs ≤ 1439

instance : DecidablePred tzOk := fun o => by
  cases o <;> simp only [tzOk] <;> infer_instance

/-- The component ranges `datetime` enforces. -/
def ValidDateTime (d : PyDateTime) : Prop :=
  1 ≤ d.year ∧ d.year ≤ 9999 ∧ 1 ≤ d.month ∧ d.month ≤ 12 ∧
  1 ≤ d.day ∧ d.day ≤ 31 ∧ d.hour ≤ 23 ∧ d.minute ≤ 59 ∧
  d.second ≤ 59 ∧ d.microsecond ≤ 999999 ∧ tzOk d.tzMinutes

instance (d : PyDateTime) : Decidable (ValidDateTime d) := by
  unfold ValidDateTime; infer_instance

/-- The `±HH:MM` suffix printed for an aware datetime (empty for a naive
one). -/
def tzChars : Option ℤ → List Char
  | none => []
  | some off =>
    (if off < 0 then '-' else '+') ::
      (padNum 2 (off.natAbs / 60) ++ ':' :: padNum 2 (off.natAbs % 60))

/-- The characters `datetime.isoformat()` prints:
`YYYY-MM-DDTHH:MM:SS[.ffffff][±HH:MM]`, microseconds omitted when 0. -/
def isoformatChars (d : PyDateTime) : List Char :=
  padNum 4 d.year ++ '-' ::
    (padNum 2 d.month ++ '-' ::
      (padNum 2 d.day ++ 'T' ::
        (padNum 2 d.hour ++ ':' ::
          (padNum 2 d.minute ++ ':' ::
            (padNum 2 d.second ++
              ((if d.microsecond = 0 then [] else '.' :: padNum 6 d.microsecond) ++
                tzChars d.tzMinutes))))))

/-- `datetime.isoformat()`. -/
def isoformat (d : PyDateTime) : String := ⟨isoformatChars d⟩

/-- Parse the trailing `±HH:MM` offset (or nothing) after the seconds and
microseconds fields. -/
def parseTz (y mo da h mi s us : ℕ) (cs : List Char) : Option PyDateTime :=
  match cs with
  | [] => some ⟨y, mo, da, h, mi, s, us, none⟩
  | sign :: cs2 =>
    if sign = '+' ∨ sign = '-' then
      match readNat 2 cs2 with
      | none => none
      | some (oh, cs3) =>
        match expectChar ':' cs3 with
        | none => none
        | some cs4 =>
          match readNat 2 cs4 with
          | none => none
          | some (om, cs5) =>
            if cs5 = [] then
              some ⟨y, mo, da, h, mi, s, us,
                some (if sign = '-' then -((oh * 60 + om : ℕ) : ℤ)
                      else ((oh * 60 + om : ℕ) : ℤ))⟩
            else none
    else none

/-- Parse the optional `.ffffff` microseconds field, then the offset. -/
def parseMicroTz (y mo da h mi s : ℕ) (cs : List Char) : Option PyDateTime :=
  match cs with
  | c :: cs2 =>
    if c = '.' then
      match readNat 6 cs2 with
      | none => none
      | some (us, cs3) => parseTz y mo da h mi s us cs3
    else parseTz y mo da h mi s 0 (c :: cs2)
  | [] => parseTz y mo da h mi s 0 []

/-- Parser underlying `datetime.fromisoformat` on the grammar `isoformat`
emits. -/
def parseDT (cs : List Char) : Option PyDateTime := do
  let (y, cs) ← readNat 4 cs
  let cs ← expectChar '-' cs
  let (mo, cs) ← readNat 2 cs
  let cs ← expectChar '-' cs
  let (da, cs) ← readNat 2 cs
  let cs ← expectChar 'T' cs
  let (h, cs) ← readNat 2 cs
  let cs ← expectChar ':' cs
  let (mi, cs) ← readNat 2 cs
  let cs ← expectChar ':' cs
  let (s, cs) ← readNat 2 cs
  parseMicroTz y mo da h mi s cs

/-- `datetime.fromisoformat`. -/
def fromisoformat (s : String) : Option PyDateTime := parseDT s.data

/-! ### Transaction fetcher (`transaction_fetcher.py`)

The network is modelled as an environment mapping `(page, page_size)` to the
4-tuple `fetch_from_solscan` returns, the resolved SOL price (the value
`get_sol_price()` produces) as a parameter, and the on-disk JSON cache as an
explicit `Option CacheFile` value threaded in and out. -/

/-- `ADDRESS_TAGS` from `transaction_fetcher.py`. -/
def ADDRESS_TAGS : List (String × String) :=
  [ ("5AZYLkiU4SPYDeRMcPbPRPmiz2Ny85jWFeV4xmQsVBNo", "Fluid Team"),
    ("HUBLSmfDxXxxzgg4KM6Q5onHVwBG5KeKjeA2BnvE5D9r", "Fluid Team"),
    ("7b1zZUuae2F56e66GqpkKe1Tq1BK2ePRRuGGr8ahe2JB", "JUP Team"),
    ("FH9bgRZrEGFA1d4859wSBdNnHgtU5ZDqFUPccHDnYQ3p", "Maple"),
    ("DVBfCpHoAtVgcVLFHyUgXaWg5ZaKU8CkekXu23ZD4iod", "Gauntlet"),
    ("fr6yQkDmWy6R6pecbUsxXaw6EvRJznZ2HsK5frQgud8", "USDG Team"),
    ("8sjM83a4u2M8YZYshLGKzYxh1VHFfbgtaytwaoEg4bUJ", "Jito Team"),
    ("8JmDPG5BFQ6gpUPJV9xBixYJLqTKCSNotkXksTmNsQfj", "Sky Team"),
    ("62SJTxjWbyaPei1HPW9mFX7KMYCEp7Z9zwiL4hGa8WQv", "LBTC Team"),
    ("EeQmNqm1RcQnee8LTyx6ccVG9FnR8TezQuw2JXq2LC1T", "Sanctum INF Team"),
    ("41zCUJsKk6cMB94DDtm99qWmyMZfp4GkAhhuz4xTwePu", "PST Team"),
    ("JANAjsZKJhtHF9PUF8cwjVp5oQjdcHYiGiFgc8TWQjp2", "Binance Campaign"),
    ("3ssDYFbTpACkshGeYHMBovxB4aE2G6fbZNeVChi85J1k", "Binance Campaign"),
    ("7s1da8DduuBFqGra5bJBjpnvL5E9mGzCuMk1Qkh4or2Z", "Liquidity Layer") ]

/-- `MIN_VALUE_USD` from `transaction_fetcher.py`. -/
def MIN_VALUE_USD : ℚ := 1000

/-- The stablecoin symbols valued 1:1 in `process_transactions`. -/
def STABLECOINS : List String := ["USDC", "USDT", "USDS", "USDG", "EURC"]

/-- A raw Solscan transfer record, with the fields `process_transactions`
reads. Fields read through `tx.get(key, default)` whose default matters are
`Option`s (`token_decimals` defaults to 6, `value` to 0); the plain-string
and numeric gets keep their default as the value of an absent field. -/
structure TransferRecord where
  flow : String
  from_address : String
  to_address : String
  token_address : String
  amount : ℚ
  token_decimals : Option ℕ
  value : Option ℚ
  time : String
  trans_id : String
  block_id : ℕ
  deriving Repr, DecidableEq

/-- The per-page `metadata['tokens']` dictionary: token address → token info,
where the info dictionary may or may not carry a `token_symbol`. -/
def lookupSymbol (tokens : List (String × Option String)) (addr : String) : String :=
  match tokens.lookup addr with
  | some (some s) => s
  | some none => "UNKNOWN"
  | none => "UNKNOWN"

/-- One processed transaction as appended by `process_transactions` (the
dictionary with keys signature/timestamp/type/token/amount/value_usd/
counterparty/team/block_id). -/
structure ClassifiedTx where
  signature : String
  timestamp : PyDateTime
  txType : String
  token : String
  amount : ℚ
  value_usd : ℚ
  counterparty : String
  team : String
  block_id : ℕ
  deriving Repr, DecidableEq

/-- Python `str.replace('Z', '+00:00')`. -/
def replaceZ (s : String) : String :=
  ⟨s.data.flatMap (fun c => if c = 'Z' then ['+', '0', '0', ':', '0', '0'] else [c])⟩

/-- `amount = amount_raw / (10 ** decimals)` as computed in
`process_transactions` (decimals default to 6 when absent). -/
def tx_amount (tx : TransferRecord) : ℚ :=
  tx.amount / 10 ^ (tx.token_decimals.getD 6)

/-- The USD valuation of `process_transactions`: stablecoins at 1:1, SOL and
WSOL at the resolved SOL price, anything else at the source-supplied `value`
(0 when absent). -/
def tx_value_usd (tokens_meta : List (String × Option String))
    (sol_price : ℚ) (tx : TransferRecord) : ℚ :=
  let token_symbol := lookupSymbol tokens_meta tx.token_address
  if token_symbol ∈ STABLECOINS then tx_amount tx * 1
  else if token_symbol = "SOL" ∨ token_symbol = "WSOL" then tx_amount tx * sol_price
  else tx.value.getD 0

/-- The body of the `process_transactions` loop for one record: `none` when
the record is skipped (below `MIN_VALUE_USD`), an error when its timestamp
does not parse (Python raises out of the loop), otherwise the classified
transaction. `sol_price` is the value `get_sol_price()` resolved. -/
def classify_transaction (tokens_meta : List (String × Option String))
    (sol_price : ℚ) (tx : TransferRecord) : Except String (Option ClassifiedTx) :=
  let tx_type := if tx.flow = "in" then "Inflow" else "Outflow"
  let counterparty := if tx.flow = "in" then tx.from_address else tx.to_address
  let team := dictGet ADDRESS_TAGS counterparty "Unknown"
  let token_symbol := lookupSymbol tokens_meta tx.token_address
  let amount := tx_amount tx
  let value_usd := tx_value_usd tokens_meta sol_price tx
  if value_usd < MIN_VALUE_USD then Except.ok none
  else
    match fromisoformat (replaceZ tx.time) with
    | none => Except.error ("Invalid isoformat string: " ++ tx.time)
    | some ts =>
      Except.ok (some
        { signature := tx.trans_id
          timestamp := ts
          txType := tx_type
          token := token_symbol
          amount := amount
          value_usd := value_usd
          counterparty := counterparty
          team := team
          block_id := tx.block_id })

/-- `process_transactions` from `transaction_fetcher.py`: classify each raw
record in order, dropping sub-threshold records; a timestamp parse failure
raises (propagates as an error). -/
def process_transactions (raw : List TransferRecord)
    (tokens_meta : List (String × Option String)) (sol_price : ℚ) :
    Except String (List ClassifiedTx) :=
  match raw with
  | [] => .ok []
  | tx :: rest =>
    match classify_transaction tokens_meta sol_price tx with
    | .error e => .error e
    | .ok none => process_transactions rest tokens_meta sol_price
    | .ok (some c) =>
      match process_transactions rest tokens_meta sol_price with
      | .error e => .error e
      | .ok cs => .ok (c :: cs)

/-- A cached transaction as stored in `transaction_cache.json`: the
classified transaction with its timestamp serialized to an ISO string. -/
structure SerTx where
  signature : String
  timestamp : String
  txType : String
  token : String
  amount : ℚ
  value_usd : ℚ
  counterparty : String
  team : String
  block_id : ℕ
  deriving Repr, DecidableEq

/-- The timestamp-to-string conversion `save_to_cache` performs per record. -/
def serializeTx (tx : ClassifiedTx) : SerTx :=
  { signature := tx.signature
    timestamp := isoformat tx.timestamp
    txType := tx.txType
    token := tx.token
    amount := tx.amount
    value_usd := tx.value_usd
    counterparty := tx.counterparty
    team := tx.team
    block_id := tx.block_id }

/-- The string-to-timestamp conversion `load_from_cache` performs per
record (`datetime.fromisoformat(tx['timestamp'])`), failing if the string
does not parse. -/
def rehydrateTx (s : SerTx) : Option ClassifiedTx :=
  (fromisoformat s.timestamp).map fun d =>
    { signature := s.signature
      timestamp := d
      txType := s.txType
      token := s.token
      amount := s.amount
      value_usd := s.value_usd
      counterparty := s.counterparty
      team := s.team
      block_id := s.block_id }

/-- The on-disk cache file contents: `last_updated` and the serialized
transaction list. -/
structure CacheFile where
  last_updated : String
  transactions : List SerTx
  deriving Repr, DecidableEq

/-- `save_to_cache` from `transaction_fetcher.py`: serialize timestamps and
write the cache record (`now` is `datetime.now().isoformat()`). -/
def save_to_cache (now : String) (txs : List ClassifiedTx) : CacheFile :=
  { last_updated := now, transactions := txs.map serializeTx }

/-- The timestamp-parsing pass of `load_from_cache` over the stored list:
any parse failure fails the whole load (Python raises into the
`except` branch). -/
def rehydrateAll : List SerTx → Option (List ClassifiedTx)
  | [] => some []
  | s :: rest =>
    match rehydrateTx s, rehydrateAll rest with
    | some c, some cs => some (c :: cs)
    | _, _ => none

/-- `load_from_cache` from `transaction_fetcher.py`: absent file or any
parse failure yields `(None, None)`; otherwise the transactions with
timestamps parsed back and the stored `last_updated`. -/
def load_from_cache : Option CacheFile → Option (List ClassifiedTx × String)
  | none => none
  | some cd =>
    match rehydrateAll cd.transactions with
    | some txs => some (txs, cd.last_updated)
    | none => none

/-- What one `fetch_from_solscan(page, page_size)` call returns:
`(data, metadata_tokens, success, error)`. -/
structure PageResult where
  data : List TransferRecord
  metadata : List (String × Option String)
  success : Bool
  error : Option String
  deriving Repr, DecidableEq

/-- The environment of a `fetch_all_transactions` run: the response of each
`fetch_from_solscan(page, page_size)` call (a missing API key is a page
result with `success = false`) and the resolved SOL price. -/
structure FetchEnv where
  page : ℕ → ℕ → PageResult
  solPrice : ℚ

/-- Outcome of the page loop of `fetch_all_transactions`. -/
inductive LoopOutcome where
  | done (acc : List ClassifiedTx)
  | fail (e : Option String)
  deriving Repr, DecidableEq

/-- The `for page in range(1, max_pages + 1)` loop of
`fetch_all_transactions`, over the remaining page numbers, also recording
each `(page, page_size)` request issued. -/
def fetch_pages (env : FetchEnv) (acc : List ClassifiedTx)
    (log : List (ℕ × ℕ)) : List ℕ → LoopOutcome × List (ℕ × ℕ)
  | [] => (.done acc, log)
  | p :: rest =>
    let r := env.page p 40
    let log2 := log ++ [(p, 40)]
    if r.success = false then (.fail r.error, log2)
    else if r.data = [] then (.done acc, log2)
    else
      match process_transactions r.data r.metadata env.solPrice with
      | .error e => (.fail (some e), log2)
      | .ok processed => fetch_pages env (acc ++ processed) log2 rest

/-- The `(transactions_list, success, error_message)` triple
`fetch_all_transactions` returns. -/
structure FetchResult where
  transactions : List ClassifiedTx
  success : Bool
  error : Option String
  deriving Repr, DecidableEq

/-- The network path of `fetch_all_transactions`: fetch pages 1..max_pages,
abort on page failure (cache untouched), stop on an empty page, then save the
accumulated list to cache. -/
def fetch_network (env : FetchEnv) (cacheFile : Option CacheFile)
    (now : String) (max_pages : ℕ) :
    (FetchResult × Option CacheFile) × List (ℕ × ℕ) :=
  match fetch_pages env [] [] (List.range' 1 max_pages) with
  | (.fail e, log) => ((⟨[], false, e⟩, cacheFile), log)
  | (.done all, log) =>
    ((⟨all, true, none⟩, some (save_to_cache now all)), log)

/-- `fetch_all_transactions` from `transaction_fetcher.py`: cache first
(`if cached:` — a non-None, non-empty list short-circuits), else the network
path. Returns the result triple, the cache file afterwards, and the list of
page requests issued. -/
def fetch_all_transactions (env : FetchEnv) (cacheFile : Option CacheFile)
    (now : String) (max_pages : ℕ) :
    (FetchResult × Option CacheFile) × List (ℕ × ℕ) :=
  match load_from_cache cacheFile with
  | some (c :: cs, _lu) => ((⟨c :: cs, true, none⟩, cacheFile), [])
  | _ => fetch_network env cacheFile now max_pages

/-- Page `k` of the environment yields data: the fetch succeeds, the data
list is non-empty, and classification succeeds. -/
def pageYields (env : FetchEnv) (k : ℕ) : Prop :=
  (env.page k 40).success = true ∧ (env.page k 40).data ≠ [] ∧
  ∃ l, process_transactions (env.page k 40).data (env.page k 40).metadata
        env.solPrice = .ok l

/-- Page `k` of the environment fails: either the fetch itself fails, or it
succeeds with data whose classification raises. -/
def pageTrouble (env : FetchEnv) (k : ℕ) : Prop :=
  (env.page k 40).success = false ∨
  ((env.page k 40).success = true ∧ (env.page k 40).data ≠ [] ∧
    ∃ e, process_transactions (env.page k 40).data (env.page k 40).metadata
          env.solPrice = .error e)

/-- The classified records page `k` contributes (empty on failure). -/
def processedOf (env : FetchEnv) (k : ℕ) : List ClassifiedTx :=
  match process_transactions (env.page k 40).data (env.page k 40).metadata
      env.solPrice with
  | .ok l => l
  | .error _ => []

/-- The cache misses: the file is absent, unparseable, or holds an empty
transaction list (Python `if cached:` is false). -/
def cacheMiss (cacheFile : Option CacheFile) : Prop :=
  ∀ c lu, load_from_cache cacheFile = some (c, lu) → c = []

/-! ### Concrete test data -/

/-- A loadable cache file holding an empty transaction list. -/
def emptyCache : CacheFile :=
  { last_updated := "2024-01-01T00:00:00", transactions := [] }

/-- An environment whose every page fetch fails. -/
def envFail : FetchEnv :=
  { page := fun _ _ =>
      { data := [], metadata := [], success := false, error := some "network error" }
    solPrice := 150 }

/-- A serialized cached transaction with a naive ISO timestamp. -/
def serTxW : SerTx :=
  { signature := "sig1", timestamp := "2024-01-02T03:04:05", txType := "Inflow",
    token := "USDC", amount := 5, value_usd := 5000, counterparty := "addr",
    team := "Unknown", block_id := 1 }

/-- A cache file holding `serTxW`. -/
def cacheW : CacheFile :=
  { last_updated := "2024-01-01T00:00:00", transactions := [serTxW] }

/-- The rehydrated form of `serTxW`. -/
def ctxW : ClassifiedTx :=
  { signature := "sig1", timestamp := ⟨2024, 1, 2, 3, 4, 5, 0, none⟩,
    txType := "Inflow", token := "USDC", amount := 5, value_usd := 5000,
    counterparty := "addr", team := "Unknown", block_id := 1 }

/-- A transfer record whose USD value is 0 (unknown token, no source value):
always dropped by classification. -/
def txSmall : TransferRecord :=
  { flow := "in", from_address := "a", to_address := "b", token_address := "mint",
    amount := 1, token_decimals := some 6, value := none, time := "garbage",
    trans_id := "s", block_id := 0 }

/-- An environment where page 1 succeeds with one sub-threshold record and
every later page fails with a network error. -/
def envC4 : FetchEnv :=
  { page := fun p _ =>
      if p = 1 then { data := [txSmall], metadata := [], success := true, error := none }
      else { data := [], metadata := [], success := false,
             error := some "HTTPSConnectionPool: Read timed out" }
    solPrice := 150 }

/-- A USDC transfer record worth 2000 USD. -/
def txBig : TransferRecord :=
  { flow := "in",
    from_address := "5AZYLkiU4SPYDeRMcPbPRPmiz2Ny85jWFeV4xmQsVBNo",
    to_address := "b", token_address := "mintUSDC", amount := 2000000000,
    token_decimals := some 6, value := none, time := "2024-01-02T03:04:05Z",
    trans_id := "sigBig", block_id := 9 }

/-- The token metadata of the page carrying `txBig`. -/
def metaC5 : List (String × Option String) := [("mintUSDC", some "USDC")]

/-- An environment where page 1 succeeds with `txBig` and every later page
succeeds with no data (end of data). -/
def envC5 : FetchEnv :=
  { page := fun p _ =>
      if p = 1 then { data := [txBig], metadata := metaC5, success := true, error := none }
      else { data := [], metadata := [], success := true, error := none }
    solPrice := 150 }

/-- The classified form of `txBig`. -/
def ctxBig : ClassifiedTx :=
  { signature := "sigBig", timestamp := ⟨2024, 1, 2, 3, 4, 5, 0, some 0⟩,
    txType := "Inflow", token := "USDC", amount := 2000, value_usd := 2000,
    counterparty := "5AZYLkiU4SPYDeRMcPbPRPmiz2Ny85jWFeV4xmQsVBNo",
    team := "Fluid Team", block_id := 9 }

/-- A classified transaction with an aware timestamp (negative UTC offset). -/
def ctx7 : ClassifiedTx :=
  { signature := "sig7", timestamp := ⟨2025, 12, 31, 23, 59, 58, 123456, some (-330)⟩,
    txType := "Outflow", token := "WSOL", amount := 10, value_usd := 1500,
    counterparty := "c7", team := "Unknown", block_id := 3 }

theorem toDigitChar_isDigit {d : ℕ} (h : d < 10) : (toDigitChar d).isDigit = true := by
  interval_cases d <;> decide

theorem digitVal_toDigitChar {d : ℕ} (h : d < 10) : digitVal (toDigitChar d) = d := by
  interval_cases d <;> decide

theorem foldl_digit_replicate_zero (k : ℕ) :
    List.foldl (fun a c => 10 * a + digitVal c) 0 (List.replicate k '0') = 0 := by
  induction k with
  | zero => rfl
  | succ n ih => simpa [List.replicate_succ, digitVal] using ih

theorem foldr_digits_chars (L : List ℕ) (hL : ∀ d ∈ L, d < 10) (a : ℕ) :
    L.foldr (fun d acc => 10 * acc + digitVal (toDigitChar d)) a
      = a * 10 ^ L.length + Nat.ofDigits 10 L := by
  induction L with
  | nil => simp
  | cons d L ih =>
    have hd : d < 10 := hL d (List.mem_cons_self d L)
    have hL2 : ∀ x ∈ L, x < 10 := fun x hx => hL x (List.mem_cons_of_mem d hx)
    simp only [List.foldr_cons, ih hL2, digitVal_toDigitChar hd, Nat.ofDigits_cons,
      List.length_cons]
    ring

theorem foldl_digitCharsOf (n a : ℕ) :
    List.foldl (fun a c => 10 * a + digitVal c) a (digitCharsOf n)
      = a * 10 ^ (Nat.digits 10 n).length + n := by
  unfold digitCharsOf
  rw [List.foldl_reverse, List.foldr_map]
  have h := foldr_digits_chars (Nat.digits 10 n)
    (fun d hd => Nat.digits_lt_base (by norm_num) hd) a
  simpa [Nat.ofDigits_digits] using h

theorem digits_length_le {m w : ℕ} (h : m < 10 ^ w) : (Nat.digits 10 m).length ≤ w := by
  rcases Nat.eq_zero_or_pos m with rfl | hm
  · simp
  · rw [Nat.digits_len 10 m (by norm_num) hm.ne']
    have h2 := Nat.log_lt_of_lt_pow hm.ne' h
    omega

theorem padNum_length {w n : ℕ} (h : n < 10 ^ w) : (padNum w n).length = w := by
  have hlen : (digitCharsOf n).length = (Nat.digits 10 n).length := by
    simp [digitCharsOf]
  have hle := digits_length_le h
  simp only [padNum, List.length_append, List.length_replicate, hlen]
  omega

theorem padNum_all_digits (w n : ℕ) : (padNum w n).all Char.isDigit = true := by
  simp only [padNum, List.all_append, List.all_eq_true, Bool.and_eq_true]
  constructor
  · intro c hc
    rw [List.eq_of_mem_replicate hc]
    decide
  · intro c hc
    simp only [digitCharsOf, List.mem_reverse, List.mem_map] at hc
    obtain ⟨d, hd, rfl⟩ := hc
    exact toDigitChar_isDigit (Nat.digits_lt_base (by norm_num) hd)

theorem readNat_padNum {w n : ℕ} (h : n < 10 ^ w) (rest : List Char) :
    readNat w (padNum w n ++ rest) = some (n, rest) := by
  unfold readNat
  rw [List.take_left' (padNum_length h), List.drop_left' (padNum_length h)]
  rw [if_pos ⟨padNum_length h, padNum_all_digits w n⟩]
  have hfold : List.foldl (fun a c => 10 * a + digitVal c) 0 (padNum w n) = n := by
    unfold padNum
    rw [List.foldl_append, foldl_digit_replicate_zero, foldl_digitCharsOf]
    simp
  rw [hfold]

theorem readNat_padNum_nil {w n : ℕ} (h : n < 10 ^ w) :
    readNat w (padNum w n) = some (n, []) := by
  rw [← List.append_nil (padNum w n)]
  exact readNat_padNum h []

theorem expectChar_cons (c : Char) (cs : List Char) :
    expectChar c (c :: cs) = some cs := by
  simp [expectChar]

theorem parseTz_tzChars (y mo da h mi s us : ℕ) (off : ℤ)
    (htz : off.natAbs ≤ 1439) :
    parseTz y mo da h mi s us (tzChars (some off)) =
      some ⟨y, mo, da, h, mi, s, us, some off⟩ := by
  have p2 : (10:ℕ) ^ 2 = 100 := by norm_num
  have hoh : off.natAbs / 60 < 10 ^ 2 := by rw [p2]; omega
  have hom : off.natAbs % 60 < 10 ^ 2 := by rw [p2]; omega
  by_cases hneg : off < 0
  · have hform : tzChars (some off) =
        '-' :: (padNum 2 (off.natAbs / 60) ++ ':' :: padNum 2 (off.natAbs % 60)) := by
      simp [tzChars, hneg]
    rw [hform]
    simp only [parseTz, readNat_padNum hoh, expectChar_cons, readNat_padNum_nil hom,
      reduceIte, or_true, true_or]
    simp only [Option.some.injEq, PyDateTime.mk.injEq, true_and]
    omega
  · have hform : tzChars (some off) =
        '+' :: (padNum 2 (off.natAbs / 60) ++ ':' :: padNum 2 (off.natAbs % 60)) := by
      simp [tzChars, hneg]
    rw [hform]
    simp only [parseTz, readNat_padNum hoh, expectChar_cons, readNat_padNum_nil hom,
      reduceIte, or_true, true_or]
    rw [if_neg (show ¬(('+' : Char) = '-') by decide)]
    simp only [Option.some.injEq, PyDateTime.mk.injEq, true_and]
    omega

theorem parseMicroTz_micro (y mo da h mi s us : ℕ) (hus : us < 10 ^ 6)
    (tz : Option ℤ) (htz : tzOk tz) :
    parseMicroTz y mo da h mi s
        ((if us = 0 then [] else '.' :: padNum 6 us) ++ tzChars tz) =
      some ⟨y, mo, da, h, mi, s, us, tz⟩ := by
  by_cases hus0 : us = 0
  · subst hus0
    rw [if_pos rfl, List.nil_append]
    rcases tz with _ | off
    · rfl
    · by_cases hneg : off < 0
      · have hform : tzChars (some off) =
            '-' :: (padNum 2 (off.natAbs / 60) ++ ':' :: padNum 2 (off.natAbs % 60)) := by
          simp [tzChars, hneg]
        rw [hform]
        simp only [parseMicroTz, reduceIte]
        rw [← hform]
        exact parseTz_tzChars y mo da h mi s 0 off htz
      · have hform : tzChars (some off) =
            '+' :: (padNum 2 (off.natAbs / 60) ++ ':' :: padNum 2 (off.natAbs % 60)) := by
          simp [tzChars, hneg]
        rw [hform]
        simp only [parseMicroTz, reduceIte]
        rw [← hform]
        exact parseTz_tzChars y mo da h mi s 0 off htz
  · rw [if_neg hus0, List.cons_append]
    simp only [parseMicroTz, reduceIte, readNat_padNum hus]
    rcases tz with _ | off
    · rfl
    · exact parseTz_tzChars y mo da h mi s us off htz

theorem parseDT_padded_head (y mo da h mi s : ℕ) (tail : List Char)
    (hy : y < 10 ^ 4) (hmo : mo < 10 ^ 2) (hda : da < 10 ^ 2)
    (hhh : h < 10 ^ 2) (hmi : mi < 10 ^ 2) (hss : s < 10 ^ 2) :
    parseDT (padNum 4 y ++ '-' ::
      (padNum 2 mo ++ '-' ::
        (padNum 2 da ++ 'T' ::
          (padNum 2 h ++ ':' ::
            (padNum 2 mi ++ ':' ::
              (padNum 2 s ++ tail)))))) = parseMicroTz y mo da h mi s tail := by
  simp only [parseDT, readNat_padNum hy, readNat_padNum hmo, readNat_padNum hda,
    readNat_padNum hhh, readNat_padNum hmi, readNat_padNum hss, expectChar_cons,
    Option.pure_def, Option.bind_eq_bind, Option.some_bind]

/-- `fromisoformat` is a left inverse of `isoformat` on valid datetimes. -/
theorem fromisoformat_isoformat (d : PyDateTime) (h : ValidDateTime d) :
    fromisoformat (isoformat d) = some d := by
  obtain ⟨y, mo, da, hh, mi, ss, us, tz⟩ := d
  simp only [ValidDateTime] at h
  obtain ⟨h1, h2, h3, h4, h5, h6, h7, h8, h9, h10, h11⟩ := h
  have p4 : (10:ℕ) ^ 4 = 10000 := by norm_num
  have p2 : (10:ℕ) ^ 2 = 100 := by norm_num
  have p6 : (10:ℕ) ^ 6 = 1000000 := by norm_num
  have hy : y < 10 ^ 4 := by rw [p4]; omega
  have hmo : mo < 10 ^ 2 := by rw [p2]; omega
  have hda : da < 10 ^ 2 := by rw [p2]; omega
  have hhh : hh < 10 ^ 2 := by rw [p2]; omega
  have hmi : mi < 10 ^ 2 := by rw [p2]; omega
  have hss : ss < 10 ^ 2 := by rw [p2]; omega
  have hus6 : us < 10 ^ 6 := by rw [p6]; omega
  show parseDT (isoformatChars ⟨y, mo, da, hh, mi, ss, us, tz⟩) = _
  simp only [isoformatChars]
  rw [parseDT_padded_head y mo da hh mi ss _ hy hmo hda hhh hmi hss]
  exact parseMicroTz_micro y mo da hh mi ss us hus6 tz h11

/-- C1: every row emitted by `process_vault_data` carries
`supply_delta_usd = ((totalSupply − totalSupplyLiquidity) / 10^supplyDecimals) × supplyPrice`
and symmetrically for the borrow side, exactly (the embedding computes in ℚ,
so the identity is exact arithmetic). -/
theorem vault_delta_formula (vaults : List Vault) (row : VaultRow)
    (h : row ∈ process_vault_data vaults) :
    ∃ v ∈ vaults,
      row.supplyDeltaUsd =
        (v.totalSupply - v.totalSupplyLiquidity) / 10 ^ v.supplyToken.decimals
          * v.supplyToken.price ∧
      row.borrowDeltaUsd =
        (v.totalBorrow - v.totalBorrowLiquidity) / 10 ^ v.borrowToken.decimals
          * v.borrowToken.price := by
  induction vaults with
  | nil => simp [process_vault_data] at h
  | cons v rest ih =>
    rw [process_vault_data] at h
    by_cases hc : |supply_delta_usd v| > 100 ∨ |borrow_delta_usd v| > 100
    · rw [if_pos hc] at h
      rcases List.mem_cons.mp h with h1 | h2
      · refine ⟨v, List.mem_cons_self v rest, ?_, ?_⟩ <;> rw [h1] <;> rfl
      · obtain ⟨w, hw, hweq⟩ := ih h2
        exact ⟨w, List.mem_cons_of_mem v hw, hweq⟩
    · rw [if_neg hc] at h
      obtain ⟨w, hw, hweq⟩ := ih h
      exact ⟨w, List.mem_cons_of_mem v hw, hweq⟩

/-- Witness for C1: a concrete vault list producing a row that satisfies the
formula. -/
theorem vault_delta_formula_witness :
    mkVaultRow exampleVaultBig ∈ process_vault_data [exampleVaultBig] ∧
    ∃ v ∈ [exampleVaultBig],
      (mkVaultRow exampleVaultBig).supplyDeltaUsd =
        (v.totalSupply - v.totalSupplyLiquidity) / 10 ^ v.supplyToken.decimals
          * v.supplyToken.price ∧
      (mkVaultRow exampleVaultBig).borrowDeltaUsd =
        (v.totalBorrow - v.totalBorrowLiquidity) / 10 ^ v.borrowToken.decimals
          * v.borrowToken.price := by
  have hmem : mkVaultRow exampleVaultBig ∈ process_vault_data [exampleVaultBig] := by
    have h : process_vault_data [exampleVaultBig] = [mkVaultRow exampleVaultBig] := by
      norm_num [process_vault_data, supply_delta_usd, supply_delta_amount,
        exampleVaultBig]
    rw [h]
    exact List.mem_singleton.mpr rfl
  exact ⟨hmem,
    vault_delta_formula [exampleVaultBig] (mkVaultRow exampleVaultBig) hmem⟩

/-- C2: `process_vault_data` emits a row for a vault snapshot iff the noise
floor is exceeded (some absolute delta strictly above 100 USD); it is
suppressed entirely exactly when both absolute deltas are ≤ 100 USD, and the
concrete vault with supply delta 80 USD and borrow delta 0 USD produces no
row. -/
theorem vault_noise_floor :
    (∀ v : Vault,
      process_vault_data [v] ≠ [] ↔
        (100 < |supply_delta_usd v| ∨ 100 < |borrow_delta_usd v|)) ∧
    process_vault_data [exampleVaultSupply80] = [] := by
  constructor
  · intro v
    rw [process_vault_data]
    by_cases hc : |supply_delta_usd v| > 100 ∨ |borrow_delta_usd v| > 100
    · rw [if_pos hc]
      simp [process_vault_data, hc]
    · rw [if_neg hc]
      simp [process_vault_data, hc]
  · norm_num [process_vault_data, supply_delta_usd, supply_delta_amount,
      borrow_delta_usd, borrow_delta_amount, exampleVaultSupply80]

/-- C9 counterexample: a vault whose supply asset has decimals 0 (with price 1
and raw supply difference 10) yields a supply USD delta of 10, not 0, so a
decimals of 0 does not force the delta to 0. -/
theorem vault_dec_zero_counterexample :
    exampleVaultDecZero.supplyToken.decimals = 0 ∧
    supply_delta_usd exampleVaultDecZero ≠ 0 := by
  norm_num [supply_delta_usd, supply_delta_amount, exampleVaultDecZero]

/-- C9 amended: a price of 0 on a side yields a USD delta of 0 for that side;
a decimals of 0 merely makes the divisor `10^0 = 1`, so the delta equals the
raw difference times the price. The computation is total in either case (no
error is raised). -/
theorem vault_zero_edge_cases (v : Vault) :
    (v.supplyToken.price = 0 → supply_delta_usd v = 0) ∧
    (v.borrowToken.price = 0 → borrow_delta_usd v = 0) ∧
    (v.supplyToken.decimals = 0 →
      supply_delta_usd v = (v.totalSupply - v.totalSupplyLiquidity) * v.supplyToken.price) ∧
    (v.borrowToken.decimals = 0 →
      borrow_delta_usd v = (v.totalBorrow - v.totalBorrowLiquidity) * v.borrowToken.price) := by
  refine ⟨fun hp => ?_, fun hp => ?_, fun hd => ?_, fun hd => ?_⟩
  · simp [supply_delta_usd, supply_delta_amount, hp]
  · simp [borrow_delta_usd, borrow_delta_amount, hp]
  · simp [supply_delta_usd, supply_delta_amount, hd]
  · simp [borrow_delta_usd, borrow_delta_amount, hd]

/-- Witness for the amended C9 at a concrete vault with both prices and both
decimals equal to 0. -/
theorem vault_zero_edge_cases_witness :
    supply_delta_usd exampleVaultZeroPrice = 0 ∧
    borrow_delta_usd exampleVaultZeroPrice = 0 ∧
    supply_delta_usd exampleVaultZeroPrice =
      (exampleVaultZeroPrice.totalSupply - exampleVaultZeroPrice.totalSupplyLiquidity)
        * exampleVaultZeroPrice.supplyToken.price ∧
    borrow_delta_usd exampleVaultZeroPrice =
      (exampleVaultZeroPrice.totalBorrow - exampleVaultZeroPrice.totalBorrowLiquidity)
        * exampleVaultZeroPrice.borrowToken.price :=
  ⟨(vault_zero_edge_cases exampleVaultZeroPrice).1 rfl,
   (vault_zero_edge_cases exampleVaultZeroPrice).2.1 rfl,
   (vault_zero_edge_cases exampleVaultZeroPrice).2.2.1 rfl,
   (vault_zero_edge_cases exampleVaultZeroPrice).2.2.2 rfl⟩

/-- C8: alert tiering is strict on the borrow side: a vault row contributes a
"Vault Borrow" priority entry iff its absolute borrow delta is strictly above
50,000 USD, tagged "High" iff strictly above 100,000 USD and "Medium"
otherwise; a row at exactly 100,000 gets "Medium" (not "High"), and a row at
exactly 50,000 contributes no entry at all. -/
theorem alert_tiering_strict :
    (∀ row : VaultRow,
      (priorities [row] []).filter (fun p => p.ptype == "Vault Borrow") =
        if 50000 < |row.borrowDeltaUsd| then
          [{ ptype := "Vault Borrow"
             item := row.vaultPair
             amountUsd := |row.borrowDeltaUsd|
             team := row.responsibleParty
             priority := if 100000 < |row.borrowDeltaUsd| then "High" else "Medium" }]
        else []) ∧
    (priorities [testVaultRow 100000] []).filter (fun p => p.ptype == "Vault Borrow") =
      [{ ptype := "Vault Borrow"
         item := "X/Y"
         amountUsd := 100000
         team := "Unknown"
         priority := "Medium" }] ∧
    priorities [testVaultRow 50000] [] = [] := by
  refine ⟨fun row => ?_, ?_, ?_⟩
  · by_cases hs : row.supplyDeltaUsd > 100000 <;>
      by_cases hb : |row.borrowDeltaUsd| > 50000 <;>
      simp [priorities, vault_priorities, hs, hb]
  · norm_num [priorities, vault_priorities, testVaultRow]
  · norm_num [priorities, vault_priorities, testVaultRow]

theorem range'_split {p mp : ℕ} (h1 : 1 ≤ p) (h2 : p ≤ mp) :
    List.range' 1 mp = List.range' 1 (p - 1) ++ p :: List.range' (p + 1) (mp - p) := by
  have h := List.range'_append 1 (p - 1) (mp - (p - 1)) 1
  simp only [one_mul] at h
  have hsum : mp - (p - 1) = (mp - p) + 1 := by omega
  have hstart : 1 + (p - 1) = p := by omega
  rw [hstart, hsum] at h
  have hsucc := List.range'_succ p (mp - p) 1
  simp only [one_mul] at hsucc
  rw [hsucc] at h
  have hmp : mp = mp - p + 1 + (p - 1) := by omega
  nth_rewrite 1 [hmp]
  exact h.symm

theorem fetch_pages_trouble (env : FetchEnv) (p : ℕ) (hp : pageTrouble env p) :
    ∀ (pre : List ℕ), (∀ k ∈ pre, pageYields env k) →
      ∀ (post : List ℕ) (acc : List ClassifiedTx) (log : List (ℕ × ℕ)),
      ∃ e log2, fetch_pages env acc log (pre ++ p :: post) = (.fail e, log2) := by
  intro pre
  induction pre with
  | nil =>
    intro _ post acc log
    rcases hp with hfail | ⟨hsucc, hdata, e, herr⟩
    · exact ⟨(env.page p 40).error, log ++ [(p, 40)], by simp [fetch_pages, hfail]⟩
    · exact ⟨some e, log ++ [(p, 40)], by simp [fetch_pages, hsucc, hdata, herr]⟩
  | cons k pre ih =>
    intro hpre post acc log
    obtain ⟨hsucc, hdata, l, hok⟩ := hpre k (List.mem_cons_self k pre)
    obtain ⟨e, log2, hrec⟩ :=
      ih (fun j hj => hpre j (List.mem_cons_of_mem k hj)) post (acc ++ l)
        (log ++ [(k, 40)])
    exact ⟨e, log2, by simpa [fetch_pages, hsucc, hdata, hok] using hrec⟩

theorem fetch_pages_empty (env : FetchEnv) (p : ℕ)
    (hsucc : (env.page p 40).success = true) (hempty : (env.page p 40).data = []) :
    ∀ (pre : List ℕ), (∀ k ∈ pre, pageYields env k) →
      ∀ (post : List ℕ) (acc : List ClassifiedTx) (log : List (ℕ × ℕ)),
      fetch_pages env acc log (pre ++ p :: post) =
        (.done (acc ++ pre.flatMap (processedOf env)),
         log ++ (pre ++ [p]).map (fun k => (k, 40))) := by
  intro pre
  induction pre with
  | nil =>
    intro _ post acc log
    simp [fetch_pages, hsucc, hempty]
  | cons k pre ih =>
    intro hpre post acc log
    obtain ⟨hks, hkd, l, hok⟩ := hpre k (List.mem_cons_self k pre)
    have hproc : processedOf env k = l := by simp [processedOf, hok]
    have hrec := ih (fun j hj => hpre j (List.mem_cons_of_mem k hj)) post
      (acc ++ l) (log ++ [(k, 40)])
    simp only [List.cons_append, List.append_eq, fetch_pages, hks, hkd, hok,
      Bool.true_eq_false, if_false, ite_false] at hrec ⊢
    rw [hrec]
    simp [List.flatMap_cons, hproc, List.append_assoc]

theorem fetch_all_cacheMiss (env : FetchEnv) (cacheFile : Option CacheFile)
    (now : String) (mp : ℕ) (hmiss : cacheMiss cacheFile) :
    fetch_all_transactions env cacheFile now mp = fetch_network env cacheFile now mp := by
  unfold fetch_all_transactions
  rcases hload : load_from_cache cacheFile with _ | ⟨cs, lu⟩
  · rfl
  · rcases cs with _ | ⟨c, cs⟩
    · rfl
    · exact absurd (hmiss _ _ hload) (by simp)

/-- C6 counterexample: a present, loadable cache file whose transaction list
is empty does not short-circuit — `fetch_all_transactions` still issues a
network request (here page 1, which fails), so a loadable cache alone does
not guarantee the cached data is returned. -/
theorem cache_present_counterexample :
    load_from_cache (some emptyCache) = some ([], "2024-01-01T00:00:00") ∧
    (fetch_all_transactions envFail (some emptyCache) "now" 5).2 = [(1, 40)] ∧
    (fetch_all_transactions envFail (some emptyCache) "now" 5).1.1.success = false := by
  refine ⟨rfl, rfl, rfl⟩

/-- C6 amended: if the cache file loads to a NON-EMPTY transaction list, the
cached transactions are returned immediately with success, the cache is left
unchanged, and no page request is issued — regardless of cache age. -/
theorem cache_hit_short_circuits (env : FetchEnv) (cacheFile : Option CacheFile)
    (now : String) (mp : ℕ) (c : ClassifiedTx) (cs : List ClassifiedTx) (lu : String)
    (h : load_from_cache cacheFile = some (c :: cs, lu)) :
    fetch_all_transactions env cacheFile now mp =
      ((⟨c :: cs, true, none⟩, cacheFile), []) := by
  unfold fetch_all_transactions
  rw [h]

/-- Witness for the amended C6: a concrete one-record cache short-circuits. -/
theorem cache_hit_short_circuits_witness :
    load_from_cache (some cacheW) = some ([ctxW], "2024-01-01T00:00:00") ∧
    fetch_all_transactions envFail (some cacheW) "now" 5 =
      ((⟨[ctxW], true, none⟩, some cacheW), []) :=
  ⟨by decide,
   cache_hit_short_circuits envFail (some cacheW) "now" 5 ctxW []
     "2024-01-01T00:00:00" (by decide)⟩

/-- C4: when the cache misses and some page `p` within range fails (fetch
failure or classification error) while all earlier pages yield data, the
whole fetch returns an empty list with `success = false` and the cache file
is unchanged (no cache write of the pages accumulated before `p`). -/
theorem fetch_failure_aborts (env : FetchEnv) (cacheFile : Option CacheFile)
    (now : String) (mp p : ℕ) (hmiss : cacheMiss cacheFile)
    (hp1 : 1 ≤ p) (hp2 : p ≤ mp)
    (hyield : ∀ k, 1 ≤ k → k < p → pageYields env k)
    (htrouble : pageTrouble env p) :
    (fetch_all_transactions env cacheFile now mp).1.1.transactions = [] ∧
    (fetch_all_transactions env cacheFile now mp).1.1.success = false ∧
    (fetch_all_transactions env cacheFile now mp).1.2 = cacheFile := by
  rw [fetch_all_cacheMiss env cacheFile now mp hmiss]
  have hpre : ∀ k ∈ List.range' 1 (p - 1), pageYields env k := by
    intro k hk
    rw [List.mem_range'_1] at hk
    exact hyield k hk.1 (by omega)
  obtain ⟨e, log2, hfp⟩ :=
    fetch_pages_trouble env p htrouble (List.range' 1 (p - 1)) hpre
      (List.range' (p + 1) (mp - p)) [] []
  unfold fetch_network
  rw [range'_split hp1 hp2, hfp]
  exact ⟨rfl, rfl, rfl⟩

/-- Witness for C4: page 1 yields (a sub-threshold record), page 2 fails; the
result is an empty failure and the (absent) cache stays absent. -/
theorem fetch_failure_aborts_witness :
    (fetch_all_transactions envC4 none "now" 5).1.1.transactions = [] ∧
    (fetch_all_transactions envC4 none "now" 5).1.1.success = false ∧
    (fetch_all_transactions envC4 none "now" 5).1.2 = none :=
  fetch_failure_aborts envC4 none "now" 5 2
    (fun c lu h => by simp [load_from_cache] at h)
    (by norm_num) (by norm_num)
    (fun k h1 h2 => by
      have hk : k = 1 := by omega
      subst hk
      exact ⟨rfl, by decide, [], rfl⟩)
    (Or.inl rfl)


/-- C5: when the cache misses, pages 1..p-1 yield data, and page `p ≤ mp`
succeeds with zero records, the fetch succeeds with exactly the records
accumulated from pages 1..p-1, persists that list to the cache, and the
page requests issued are exactly pages 1..p of size 40 (none beyond `p`). -/
theorem fetch_stops_on_empty_page (env : FetchEnv) (cacheFile : Option CacheFile)
    (now : String) (mp p : ℕ) (hmiss : cacheMiss cacheFile)
    (hp1 : 1 ≤ p) (hp2 : p ≤ mp)
    (hyield : ∀ k, 1 ≤ k → k < p → pageYields env k)
    (hsucc : (env.page p 40).success = true)
    (hempty : (env.page p 40).data = []) :
    fetch_all_transactions env cacheFile now mp =
      ((⟨(List.range' 1 (p - 1)).flatMap (processedOf env), true, none⟩,
        some (save_to_cache now ((List.range' 1 (p - 1)).flatMap (processedOf env)))),
       (List.range' 1 p).map (fun k => (k, 40))) := by
  rw [fetch_all_cacheMiss env cacheFile now mp hmiss]
  have hpre : ∀ k ∈ List.range' 1 (p - 1), pageYields env k := by
    intro k hk
    rw [List.mem_range'_1] at hk
    exact hyield k hk.1 (by omega)
  have hfp := fetch_pages_empty env p hsucc hempty (List.range' 1 (p - 1)) hpre
    (List.range' (p + 1) (mp - p)) [] []
  have hr : List.range' 1 (p - 1) ++ [p] = List.range' 1 p := by
    have h := List.range'_append 1 (p - 1) 1 1
    simp only [one_mul, List.range'_one] at h
    rw [show 1 + (p - 1) = p by omega] at h
    exact h
  unfold fetch_network
  rw [range'_split hp1 hp2, hfp, hr]
  simp

/-- Witness for C5: page 1 yields one classified USDC transfer, page 2 is
empty; the run succeeds with that one record, saves it, and requests only
pages 1 and 2. -/
theorem fetch_stops_on_empty_page_witness :
    fetch_all_transactions envC5 none "now" 5 =
      ((⟨(List.range' 1 1).flatMap (processedOf envC5), true, none⟩,
        some (save_to_cache "now" ((List.range' 1 1).flatMap (processedOf envC5)))),
       (List.range' 1 2).map (fun k => (k, 40))) :=
  fetch_stops_on_empty_page envC5 none "now" 5 2
    (fun c lu h => by simp [load_from_cache] at h)
    (by norm_num) (by norm_num)
    (fun k h1 h2 => by
      have hk : k = 1 := by omega
      subst hk
      refine ⟨rfl, by decide, [ctxBig], ?_⟩
      have hts : fromisoformat (replaceZ "2024-01-02T03:04:05Z") =
          some ⟨2024, 1, 2, 3, 4, 5, 0, some 0⟩ := by decide
      show process_transactions [txBig] metaC5 (150 : ℚ) = Except.ok [ctxBig]
      simp only [process_transactions, classify_transaction, txBig, metaC5, ctxBig,
        tx_amount, tx_value_usd, lookupSymbol, dictGet, ADDRESS_TAGS, STABLECOINS,
        MIN_VALUE_USD, hts]
      norm_num)
    rfl rfl


theorem classify_some_min (meta : List (String × Option String)) (sp : ℚ)
    (tx : TransferRecord) (c : ClassifiedTx)
    (h : classify_transaction meta sp tx = .ok (some c)) :
    MIN_VALUE_USD ≤ c.value_usd := by
  simp only [classify_transaction] at h
  by_cases hv : tx_value_usd meta sp tx < MIN_VALUE_USD
  · rw [if_pos hv] at h
    simp at h
  · rw [if_neg hv] at h
    rcases hts : fromisoformat (replaceZ tx.time) with _ | ts
    · rw [hts] at h
      simp at h
    · rw [hts] at h
      simp only [Except.ok.injEq, Option.some.injEq] at h
      rw [← h]
      exact not_lt.mp hv

theorem process_min_value (raw : List TransferRecord)
    (meta : List (String × Option String)) (sp : ℚ) (out : List ClassifiedTx)
    (h : process_transactions raw meta sp = .ok out) :
    ∀ c ∈ out, MIN_VALUE_USD ≤ c.value_usd := by
  induction raw generalizing out with
  | nil =>
    simp only [process_transactions, Except.ok.injEq] at h
    subst h
    simp
  | cons tx rest ih =>
    simp only [process_transactions] at h
    rcases hc : classify_transaction meta sp tx with e | copt
    · rw [hc] at h
      simp at h
    · rw [hc] at h
      rcases copt with _ | c2
      · exact ih out h
      · rcases hrest : process_transactions rest meta sp with er | cs
        · rw [hrest] at h
          simp at h
        · rw [hrest] at h
          simp only [Except.ok.injEq] at h
          subst h
          intro c hcmem
          rcases List.mem_cons.mp hcmem with rfl | hmem
          · exact classify_some_min meta sp tx c hc
          · exact ih cs hrest c hmem

/-- The page-1 classification of the C5 test environment evaluated:
`txBig` classifies to `ctxBig`. -/
theorem process_txBig : process_transactions [txBig] metaC5 150 = .ok [ctxBig] := by
  have hts : fromisoformat (replaceZ "2024-01-02T03:04:05Z") =
      some ⟨2024, 1, 2, 3, 4, 5, 0, some 0⟩ := by decide
  simp only [process_transactions, classify_transaction, txBig, metaC5, ctxBig,
    tx_amount, tx_value_usd, lookupSymbol, dictGet, ADDRESS_TAGS, STABLECOINS,
    MIN_VALUE_USD, hts]
  norm_num

/-- C3: every transaction `process_transactions` emits has
`value_usd ≥ MIN_VALUE_USD` (1000), and a record whose computed USD value is
below 1000 is dropped by classification (never kept as a zero-value row). -/
theorem classified_min_value :
    (∀ (raw : List TransferRecord) (meta : List (String × Option String))
       (sp : ℚ) (out : List ClassifiedTx),
       process_transactions raw meta sp = .ok out →
       ∀ c ∈ out, MIN_VALUE_USD ≤ c.value_usd) ∧
    (∀ (meta : List (String × Option String)) (sp : ℚ) (tx : TransferRecord),
       tx_value_usd meta sp tx < MIN_VALUE_USD →
       classify_transaction meta sp tx = .ok none) := by
  constructor
  · exact process_min_value
  · intro meta sp tx hv
    simp only [classify_transaction]
    rw [if_pos hv]

/-- Witness for C3: applied to a retained 2000-USD transfer (invariant holds
on the output) and to a 0-USD transfer (classification drops it). -/
theorem classified_min_value_witness :
    (∀ c ∈ [ctxBig], MIN_VALUE_USD ≤ c.value_usd) ∧
    classify_transaction [] 150 txSmall = .ok none :=
  ⟨classified_min_value.1 [txBig] metaC5 150 [ctxBig] process_txBig,
   classified_min_value.2 [] 150 txSmall (by decide)⟩

/-- C10: a transfer whose resolved symbol is neither a stablecoin nor
SOL/WSOL and which carries no source `value` field gets USD value 0 and is
always dropped by `process_transactions`, regardless of its raw amount. -/
theorem unknown_token_dropped (meta : List (String × Option String)) (sp : ℚ)
    (tx : TransferRecord) (rest : List TransferRecord)
    (hstab : lookupSymbol meta tx.token_address ∉ STABLECOINS)
    (hsol : lookupSymbol meta tx.token_address ≠ "SOL")
    (hwsol : lookupSymbol meta tx.token_address ≠ "WSOL")
    (hval : tx.value = none) :
    tx_value_usd meta sp tx = 0 ∧
    process_transactions (tx :: rest) meta sp = process_transactions rest meta sp := by
  have h0 : tx_value_usd meta sp tx = 0 := by
    simp only [tx_value_usd]
    rw [if_neg hstab, if_neg (not_or.mpr ⟨hsol, hwsol⟩), hval]
    rfl
  have hlt : tx_value_usd meta sp tx < MIN_VALUE_USD := by
    rw [h0]
    norm_num [MIN_VALUE_USD]
  have hcl : classify_transaction meta sp tx = .ok none := by
    simp only [classify_transaction]
    rw [if_pos hlt]
  refine ⟨h0, ?_⟩
  simp only [process_transactions, hcl]

/-- Witness for C10: the unknown-token record `txSmall` contributes nothing. -/
theorem unknown_token_dropped_witness :
    tx_value_usd [] 150 txSmall = 0 ∧
    process_transactions [txSmall] [] 150 = process_transactions [] [] 150 :=
  unknown_token_dropped [] 150 txSmall []
    (by decide) (by decide) (by decide) rfl

theorem rehydrateAll_serialize (txs : List ClassifiedTx)
    (h : ∀ tx ∈ txs, ValidDateTime tx.timestamp) :
    rehydrateAll (txs.map serializeTx) = some txs := by
  induction txs with
  | nil => rfl
  | cons t ts ih =>
    have hrt : rehydrateTx (serializeTx t) = some t := by
      simp only [rehydrateTx, serializeTx,
        fromisoformat_isoformat t.timestamp (h t (List.mem_cons_self t ts))]
      rfl
    simp only [List.map_cons, rehydrateAll, hrt,
      ih (fun x hx => h x (List.mem_cons_of_mem t hx))]

/-- C7: saving N classified transactions and loading them back yields exactly
the same N records — every field identical and each ISO-serialized timestamp
parsed back to the same instant — together with the stored `last_updated`. -/
theorem cache_round_trip (now : String) (txs : List ClassifiedTx)
    (h : ∀ tx ∈ txs, ValidDateTime tx.timestamp) :
    load_from_cache (some (save_to_cache now txs)) = some (txs, now) := by
  simp only [load_from_cache, save_to_cache, rehydrateAll_serialize txs h]

/-- Witness for C7: a two-record round trip, one naive timestamp and one
aware timestamp with microseconds and a negative UTC offset. -/
theorem cache_round_trip_witness :
    (∀ tx ∈ [ctxW, ctx7], ValidDateTime tx.timestamp) ∧
    load_from_cache (some (save_to_cache "now" [ctxW, ctx7])) =
      some ([ctxW, ctx7], "now") :=
  ⟨by decide, cache_round_trip "now" [ctxW, ctx7] (by decide)⟩


end TreasuryMonitor
